import Mathlib

set_option maxHeartbeats 1000000

/-!
Verification of the Fibonacci HTTP service in `src/main.rs`.

The program exposes `GET /fibonacci?n=<i64>`.  The handler `fibonacci` calls
`compute_fibonacci(n)`, which creates a span, creates and increments a
counter, validates `1 <= n <= 90`, and on success runs the iterative loop
`while i < n { result = a + b; a = b; b = result; i = i + 1 }` over `i64`
arithmetic, starting from `a = 0, b = 1, i = 1`.

The embedding below models `i64` values as `Int` with explicit bounds
checks: `checkedAdd` returns `none` exactly when the mathematical sum of its
arguments falls outside `[i64Min, i64Max]`, which models the overflow panic
of debug-mode Rust addition.  A `none` observed anywhere downstream
therefore means "the program panicked"; `some` means normal return.
Telemetry side effects (span attributes and status, counter instrument
creation, counter increments) are modelled as explicit data in the returned
`FibOutcome` record.
-/

/-- Smallest 64-bit signed integer, `i64::MIN`. -/
def i64Min : Int := -(2 ^ 63)

/-- Largest 64-bit signed integer, `i64::MAX`. -/
def i64Max : Int := 2 ^ 63 - 1

/-- Checked `i64` addition: `some (a + b)` when the exact sum fits in an
`i64`, `none` when it would overflow (Rust panics on overflowing `+` in
debug builds; the program has no wrap-around path it relies on). -/
def checkedAdd (a b : Int) : Option Int :=
  if i64Min ≤ a + b ∧ a + b ≤ i64Max then some (a + b) else none

/-- Terminal status of a span: unset (non-error) or error with a
description, mirroring `opentelemetry::trace::Status` as used here. -/
inductive SpanStatus where
  | unset : SpanStatus
  | error (description : String) : SpanStatus
deriving DecidableEq

/-- Record of one span: name, attributes in the order they were set
(values here are all `i64`), terminal status, and whether it was ended. -/
structure SpanRecord where
  name : String
  attributes : List (String × Int)
  status : SpanStatus
  ended : Bool
deriving DecidableEq

/-- Record of one `counter.add` call: the amount and the attached
attribute set. -/
structure CounterAdd where
  value : Nat
  attributes : List (String × String)
deriving DecidableEq

/-- Record of one metric-instrument creation: which meter it was obtained
from and the instrument name (`meter.u64_counter(name).init()`). -/
structure InstrumentCreation where
  meter : String
  instrument : String
deriving DecidableEq

/-- Rust `Result<i64, Box<dyn Error>>` as returned by `compute_fibonacci`;
the boxed error is only ever built from a `&str`, so its display string is
kept directly. -/
inductive FibResult where
  | ok (value : Int) : FibResult
  | err (msg : String) : FibResult
deriving DecidableEq

/-- Everything one call of `compute_fibonacci` produces: the span it
created (and ended, on scope exit), the instrument creations, the counter
increments, and the returned value.  `result = none` models a panic
(unchecked `i64` overflow inside the loop). -/
structure FibOutcome where
  span : SpanRecord
  counterCreations : List InstrumentCreation
  counterAdds : List CounterAdd
  result : Option FibResult
deriving DecidableEq

/-- The validation error message used in `compute_fibonacci`. -/
def errMsg : String := "n must be between 1 and 90"

/-- The `while i < n` loop of `compute_fibonacci`, with the iteration count
made explicit: each step performs `result = a + b; a = b; b = result` using
checked `i64` addition, and `none` is returned if some addition overflows.
The third argument threads the `result` variable (initialised to `1` before
the loop and returned unchanged when zero iterations run). -/
def fibLoopGo : Nat → Int → Int → Int → Option Int
  | 0, _, _, result => some result
  | k + 1, a, b, _ =>
    match checkedAdd a b with
    | some r => fibLoopGo k b r r
    | none => none

/-- `compute_fibonacci` from `src/main.rs` (lines 60-94).  It creates the
span `"fibonacci"` from tracer `"fibonacci_server"`, creates the counter
`"fibo_counter"` from meter `"fibonacci_server_metric"`, adds `1` to it with
attribute `id = "1234"`, sets span attribute `fibonacci.n = n`, rejects
`n < 1 || n > 90` with span status error and an `Err`, and otherwise runs
the loop (`n - 1` iterations when `n > 2`, zero iterations and `result = 1`
otherwise), sets `fibonacci.result`, and returns `Ok(result)`.  The span is
ended on every path when it is dropped at scope exit. -/
def compute_fibonacci (n : Int) : FibOutcome :=
  if n < 1 ∨ n > 90 then
    { span := ⟨"fibonacci", [("fibonacci.n", n)], SpanStatus.error errMsg, true⟩
      counterCreations := [⟨"fibonacci_server_metric", "fibo_counter"⟩]
      counterAdds := [⟨1, [("id", "1234")]⟩]
      result := some (FibResult.err errMsg) }
  else
    match (if n > 2 then fibLoopGo (n - 1).toNat 0 1 1 else some 1) with
    | some r =>
      { span := ⟨"fibonacci", [("fibonacci.n", n), ("fibonacci.result", r)],
                 SpanStatus.unset, true⟩
        counterCreations := [⟨"fibonacci_server_metric", "fibo_counter"⟩]
        counterAdds := [⟨1, [("id", "1234")]⟩]
        result := some (FibResult.ok r) }
    | none =>
      { span := ⟨"fibonacci", [("fibonacci.n", n)], SpanStatus.unset, true⟩
        counterCreations := [⟨"fibonacci_server_metric", "fibo_counter"⟩]
        counterAdds := [⟨1, [("id", "1234")]⟩]
        result := none }

/-- The query payload of `GET /fibonacci`: `struct FibonacciRequest { n: i64 }`. -/
structure FibonacciRequest where
  n : Int

/-- The response payload `struct FibonacciResult { n, result, message }`. -/
structure FibonacciResult where
  n : Int
  result : Int
  message : String
deriving DecidableEq

/-- `is_zero` from `src/main.rs`: the skip-serialization predicate for the
`i64` fields. -/
def is_zero (num : Int) : Bool := num == 0

/-- `is_empty` from `src/main.rs`: the skip-serialization predicate for the
`message` field. -/
def is_empty (s : String) : Bool := s.isEmpty

/-- A JSON scalar appearing in the serialized response body. -/
inductive JsonVal where
  | num (value : Int) : JsonVal
  | str (value : String) : JsonVal
deriving DecidableEq

/-- Serde serialization of `FibonacciResult` as the ordered list of fields
actually emitted: a field is skipped exactly when its
`skip_serializing_if` predicate (`is_zero` / `is_empty`) holds. -/
def serializeFibonacciResult (r : FibonacciResult) : List (String × JsonVal) :=
  (if is_zero r.n then [] else [("n", JsonVal.num r.n)]) ++
  (if is_zero r.result then [] else [("result", JsonVal.num r.result)]) ++
  (if is_empty r.message then [] else [("message", JsonVal.str r.message)])

/-- The handler `fibonacci` from `src/main.rs` (lines 43-58): on `Ok(result)`
it responds with `{n: req.n, result, message: ""}`; on `Err(error)` with
`{n: 0, result: 0, message: format!("{}", error)}`.  `none` propagates a
panic of `compute_fibonacci`. -/
def fibonacci (req : FibonacciRequest) : Option FibonacciResult :=
  match (compute_fibonacci req.n).result with
  | some (FibResult.ok result) => some ⟨req.n, result, ""⟩
  | some (FibResult.err e) => some ⟨0, 0, e⟩
  | none => none

/-- One process execution handling the given requests in order: the
instrument-creation events it performs, concatenated per request. -/
def runCounterCreations : List Int → List InstrumentCreation
  | [] => []
  | n :: rest => (compute_fibonacci n).counterCreations ++ runCounterCreations rest

/-- The reference Fibonacci function of the specification:
`F 1 = F 2 = 1` and `F k = F (k-1) + F (k-2)` for `k > 2`, extended with
the conventional `F 0 = 0` (which makes the loop's start `a = 0, b = 1`
read as `(F 0, F 1)`). -/
def fibRef : Nat → Int
  | 0 => 0
  | 1 => 1
  | n + 2 => fibRef (n + 1) + fibRef n

theorem fibRef_add_two (m : Nat) : fibRef (m + 2) = fibRef (m + 1) + fibRef m := rfl

theorem fibRef_eq_fib : ∀ n : Nat, fibRef n = (Nat.fib n : Int)
  | 0 => rfl
  | 1 => rfl
  | n + 2 => by
    rw [fibRef_add_two, fibRef_eq_fib (n + 1), fibRef_eq_fib n, Nat.fib_add_two]
    push_cast
    ring

theorem fibRef_nonneg (n : Nat) : 0 ≤ fibRef n := by
  rw [fibRef_eq_fib]
  exact_mod_cast Nat.zero_le _

theorem fibRef_mono {m n : Nat} (h : m ≤ n) : fibRef m ≤ fibRef n := by
  rw [fibRef_eq_fib, fibRef_eq_fib]
  exact_mod_cast Nat.fib_mono h

theorem fibRef_pos {n : Nat} (h : 1 ≤ n) : 1 ≤ fibRef n := by
  rw [fibRef_eq_fib]
  exact_mod_cast Nat.succ_le_of_lt (Nat.fib_pos.mpr h)

theorem fib_ninety : Nat.fib 90 = 2880067194370816120 := by decide

theorem fibRef_ninety_le : fibRef 90 ≤ i64Max := by
  rw [fibRef_eq_fib, fib_ninety, i64Max]
  norm_num

theorem checkedAdd_fibRef (m : Nat) (h : fibRef (m + 2) ≤ i64Max) :
    checkedAdd (fibRef m) (fibRef (m + 1)) = some (fibRef (m + 2)) := by
  have hs : fibRef m + fibRef (m + 1) = fibRef (m + 2) := by
    rw [fibRef_add_two]; ring
  have hlo : i64Min ≤ fibRef (m + 2) := by
    have h0 := fibRef_nonneg (m + 2)
    have : i64Min ≤ 0 := by rw [i64Min]; norm_num
    linarith
  rw [checkedAdd, hs, if_pos ⟨hlo, h⟩]

theorem fibLoopGo_spec : ∀ (k m : Nat) (r : Int),
    fibRef (m + k + 2) ≤ i64Max →
    fibLoopGo (k + 1) (fibRef m) (fibRef (m + 1)) r = some (fibRef (m + k + 2))
  | 0, m, r, h => by
    rw [fibLoopGo, checkedAdd_fibRef m (by simpa using h)]
    simp [fibLoopGo]
  | k + 1, m, r, h => by
    have hm2 : fibRef (m + 2) ≤ i64Max := by
      refine le_trans (fibRef_mono ?_) h
      omega
    have ih := fibLoopGo_spec k (m + 1) (fibRef (m + 2))
      (by rw [show m + 1 + k + 2 = m + (k + 1) + 2 by omega]; exact h)
    rw [fibLoopGo, checkedAdd_fibRef m hm2]
    simp only [show m + 1 + 1 = m + 2 from rfl,
      show m + 1 + k + 2 = m + (k + 1) + 2 by omega] at ih
    simpa using ih

/-- Full characterization of `compute_fibonacci`: out-of-range inputs give
the error outcome, in-range inputs the success outcome with value
`fibRef n` — in particular no addition in the loop ever overflows. -/
theorem compute_fibonacci_eq (n : Int) :
    compute_fibonacci n =
      if n < 1 ∨ n > 90 then
        { span := ⟨"fibonacci", [("fibonacci.n", n)], SpanStatus.error errMsg, true⟩
          counterCreations := [⟨"fibonacci_server_metric", "fibo_counter"⟩]
          counterAdds := [⟨1, [("id", "1234")]⟩]
          result := some (FibResult.err errMsg) }
      else
        { span := ⟨"fibonacci", [("fibonacci.n", n), ("fibonacci.result", fibRef n.toNat)],
                   SpanStatus.unset, true⟩
          counterCreations := [⟨"fibonacci_server_metric", "fibo_counter"⟩]
          counterAdds := [⟨1, [("id", "1234")]⟩]
          result := some (FibResult.ok (fibRef n.toNat)) } := by
  by_cases h : n < 1 ∨ n > 90
  · rw [if_pos h, compute_fibonacci, if_pos h]
  · rw [if_neg h, compute_fibonacci, if_neg h]
    have h1 : 1 ≤ n := by omega
    have h2 : n ≤ 90 := by omega
    by_cases h3 : n > 2
    · have hk1 : ((n - 1).toNat - 1) + 1 = (n - 1).toNat := by omega
      have hidx : 0 + ((n - 1).toNat - 1) + 2 = n.toNat := by omega
      have hb : fibRef (0 + ((n - 1).toNat - 1) + 2) ≤ i64Max := by
        rw [hidx]
        exact le_trans (fibRef_mono (by omega)) fibRef_ninety_le
      have key := fibLoopGo_spec ((n - 1).toNat - 1) 0 1 hb
      rw [hk1, hidx] at key
      have key2 : fibLoopGo (n - 1).toNat 0 1 1 = some (fibRef n.toNat) := key
      rw [if_pos h3, key2]
    · have hn : n = 1 ∨ n = 2 := by omega
      rcases hn with rfl | rfl
      · decide
      · decide

theorem result_ok_of_in_range (n : Int) (h : ¬(n < 1 ∨ n > 90)) :
    (compute_fibonacci n).result = some (FibResult.ok (fibRef n.toNat)) := by
  rw [compute_fibonacci_eq, if_neg h]

theorem result_err_of_out_range (n : Int) (h : n < 1 ∨ n > 90) :
    (compute_fibonacci n).result = some (FibResult.err errMsg) := by
  rw [compute_fibonacci_eq, if_pos h]

theorem counterCreations_eq (n : Int) :
    (compute_fibonacci n).counterCreations =
      [InstrumentCreation.mk "fibonacci_server_metric" "fibo_counter"] := by
  by_cases h : n < 1 ∨ n > 90 <;> simp [compute_fibonacci_eq, h]

/-- C1: for every integer `n` with `1 ≤ n ≤ 90`, `compute_fibonacci n`
returns `Ok (F n)`, where `F` is the reference Fibonacci function `fibRef`
(`F 1 = F 2 = 1`, `F k = F (k-1) + F (k-2)`); `fibLoopGo_spec` shows this
is exactly the value of the `n-1`-fold iteration `result = a + b; a = b;
b = result` from `a = 0, b = 1`. -/
theorem C1_compute_fibonacci_returns_fib (n : Int) (h1 : 1 ≤ n) (h2 : n ≤ 90) :
    (compute_fibonacci n).result = some (FibResult.ok (fibRef n.toNat)) := by
  rw [compute_fibonacci_eq, if_neg (by omega)]

/-- Witness for C1 at `n = 10`: the hypotheses hold and the returned value
evaluates to `55`. -/
theorem C1_witness :
    (1:Int) ≤ 10 ∧ (10:Int) ≤ 90 ∧
    (compute_fibonacci 10).result = some (FibResult.ok (fibRef (10:Int).toNat)) ∧
    fibRef (10:Int).toNat = 55 :=
  ⟨by norm_num, by norm_num,
    C1_compute_fibonacci_returns_fib 10 (by norm_num) (by norm_num), by decide⟩

/-- C2: `compute_fibonacci n` returns an error iff `n < 1 ∨ n > 90`, the
error message is exactly "n must be between 1 and 90", and every in-range
`n` returns `Ok`. -/
theorem C2_validation_error_iff (n : Int) :
    ((compute_fibonacci n).result = some (FibResult.err "n must be between 1 and 90")
        ↔ (n < 1 ∨ n > 90)) ∧
    (1 ≤ n → n ≤ 90 → ∃ r, (compute_fibonacci n).result = some (FibResult.ok r)) := by
  rw [compute_fibonacci_eq]
  by_cases h : n < 1 ∨ n > 90
  · rw [if_pos h]
    exact ⟨⟨fun _ => h, fun _ => rfl⟩, fun h1 h2 => absurd h (by omega)⟩
  · rw [if_neg h]
    refine ⟨⟨fun hc => by simp at hc, fun hc => absurd hc h⟩,
      fun _ _ => ⟨fibRef n.toNat, rfl⟩⟩

/-- Witness for C2: the error shape at `n = 0` and the `Ok` shape at `n = 7`. -/
theorem C2_witness :
    (compute_fibonacci 0).result = some (FibResult.err "n must be between 1 and 90") ∧
    (∃ r, (compute_fibonacci 7).result = some (FibResult.ok r)) :=
  ⟨(C2_validation_error_iff 0).1.mpr (by norm_num),
    (C2_validation_error_iff 7).2 (by norm_num) (by norm_num)⟩

/-- C3 counterexample: the claim asserts `fib(90) = 1779979416004714189`,
but `compute_fibonacci 90` returns `Ok 2880067194370816120`; the claimed
number is `fib(89)` of the very recurrence the spec fixes
(`fib(1) = fib(2) = 1`). -/
theorem C3_counterexample :
    (compute_fibonacci 90).result ≠ some (FibResult.ok 1779979416004714189) := by
  rw [result_ok_of_in_range 90 (by norm_num), show ((90:Int).toNat) = 90 from rfl,
    fibRef_eq_fib, fib_ninety]
  simp only [ne_eq, Option.some.injEq, FibResult.ok.injEq]
  norm_num

/-- C3 amended: the computation yields `fib(1) = 1`, `fib(2) = 1`,
`fib(10) = 55`, and `fib(90) = 2880067194370816120`. -/
theorem C3_amended_values :
    (compute_fibonacci 1).result = some (FibResult.ok 1) ∧
    (compute_fibonacci 2).result = some (FibResult.ok 1) ∧
    (compute_fibonacci 10).result = some (FibResult.ok 55) ∧
    (compute_fibonacci 90).result = some (FibResult.ok 2880067194370816120) := by
  refine ⟨?_, ?_, ?_, ?_⟩
  · rw [result_ok_of_in_range 1 (by norm_num)]
    rfl
  · rw [result_ok_of_in_range 2 (by norm_num)]
    rfl
  · rw [result_ok_of_in_range 10 (by norm_num), show ((10:Int).toNat) = 10 from rfl,
      fibRef_eq_fib]
    decide
  · rw [result_ok_of_in_range 90 (by norm_num), show ((90:Int).toNat) = 90 from rfl,
      fibRef_eq_fib, fib_ninety]
    norm_num

/-- C4: under the validation precondition `1 ≤ n ≤ 90` no addition in the
loop overflows an `i64`: the outcome is `some`, never the `none` that
models the overflow panic of `checkedAdd`. -/
theorem C4_no_overflow (n : Int) (h1 : 1 ≤ n) (h2 : n ≤ 90) :
    ((compute_fibonacci n).result).isSome = true := by
  rw [compute_fibonacci_eq, if_neg (by omega)]
  rfl

/-- Witness for C4 at the largest accepted input `n = 90`. -/
theorem C4_witness :
    (1:Int) ≤ 90 ∧ (90:Int) ≤ 90 ∧ ((compute_fibonacci 90).result).isSome = true :=
  ⟨by norm_num, by norm_num, C4_no_overflow 90 (by norm_num) (by norm_num)⟩

/-- C5: for every request with `n ≤ 0` or `n ≥ 91` the handler returns the
all-zero/message-only record, and its serialization is exactly the single
field `message = "n must be between 1 and 90"`: the zero-valued `n` and
`result` fields are skipped. -/
theorem C5_error_response_body (n : Int) (h : n ≤ 0 ∨ n ≥ 91) :
    fibonacci ⟨n⟩ = some ⟨0, 0, "n must be between 1 and 90"⟩ ∧
    serializeFibonacciResult ⟨0, 0, "n must be between 1 and 90"⟩ =
      [("message", JsonVal.str "n must be between 1 and 90")] := by
  have hr : (compute_fibonacci n).result = some (FibResult.err errMsg) :=
    result_err_of_out_range n (by omega)
  exact ⟨by simp [fibonacci, hr]; rfl, by decide⟩

/-- Witness for C5 at `n = 91`. -/
theorem C5_witness :
    fibonacci ⟨91⟩ = some ⟨0, 0, "n must be between 1 and 90"⟩ ∧
    serializeFibonacciResult ⟨0, 0, "n must be between 1 and 90"⟩ =
      [("message", JsonVal.str "n must be between 1 and 90")] :=
  C5_error_response_body 91 (by norm_num)

/-- C6: the span always carries `fibonacci.n = n`; for in-range `n` it also
carries `fibonacci.result` equal to the returned value and its status is
unset (non-error); for out-of-range `n` its status is the error status with
description "n must be between 1 and 90". -/
theorem C6_span_attributes_status (n : Int) :
    ("fibonacci.n", n) ∈ (compute_fibonacci n).span.attributes ∧
    (1 ≤ n → n ≤ 90 →
      (compute_fibonacci n).result = some (FibResult.ok (fibRef n.toNat)) ∧
      ("fibonacci.result", fibRef n.toNat) ∈ (compute_fibonacci n).span.attributes ∧
      (compute_fibonacci n).span.status = SpanStatus.unset) ∧
    (n < 1 ∨ n > 90 →
      (compute_fibonacci n).span.status =
        SpanStatus.error "n must be between 1 and 90") := by
  rw [compute_fibonacci_eq]
  by_cases h : n < 1 ∨ n > 90
  · rw [if_pos h]
    exact ⟨by simp, fun h1 h2 => absurd h (by omega), fun _ => rfl⟩
  · rw [if_neg h]
    exact ⟨by simp, fun _ _ => ⟨rfl, by simp, rfl⟩, fun hc => absurd hc h⟩

/-- Witness for C6: the success half at `n = 10` and the error half at
`n = 100`. -/
theorem C6_witness :
    (("fibonacci.n", (10:Int)) ∈ (compute_fibonacci 10).span.attributes ∧
      (compute_fibonacci 10).result = some (FibResult.ok (fibRef (10:Int).toNat)) ∧
      ("fibonacci.result", fibRef (10:Int).toNat) ∈ (compute_fibonacci 10).span.attributes ∧
      (compute_fibonacci 10).span.status = SpanStatus.unset) ∧
    (compute_fibonacci 100).span.status =
      SpanStatus.error "n must be between 1 and 90" :=
  ⟨⟨(C6_span_attributes_status 10).1,
      (C6_span_attributes_status 10).2.1 (by norm_num) (by norm_num)⟩,
    (C6_span_attributes_status 100).2.2 (by norm_num)⟩

/-- C7: every call performs exactly one counter increment, adding exactly
`1` with the fixed attribute `id = "1234"`, on the error path as on the
success path. -/
theorem C7_counter_add_once (n : Int) :
    (compute_fibonacci n).counterAdds = [CounterAdd.mk 1 [("id", "1234")]] := by
  by_cases h : n < 1 ∨ n > 90 <;> simp [compute_fibonacci_eq, h]

/-- C8 counterexample: an execution that handles two requests performs two
counter-instrument creations (`meter.u64_counter("fibo_counter").init()`
runs inside `compute_fibonacci`, once per request), refuting "no execution
of the program creates the counter instrument more than once". -/
theorem C8_counterexample : ¬ (runCounterCreations [1, 2]).length ≤ 1 := by
  rw [runCounterCreations, runCounterCreations, runCounterCreations,
    counterCreations_eq, counterCreations_eq]
  decide

/-- C8 amended: the counter instrument is created once per handled request
(once per `compute_fibonacci` call), not once per process; every creation
names the same instrument `"fibo_counter"` on the same meter
`"fibonacci_server_metric"`. -/
theorem C8_amended_creation_per_request (requests : List Int) :
    runCounterCreations requests =
      requests.map
        (fun _ => InstrumentCreation.mk "fibonacci_server_metric" "fibo_counter") := by
  induction requests with
  | nil => rfl
  | cons n rest ih =>
    rw [runCounterCreations, ih, counterCreations_eq, List.map_cons]
    rfl

/-- C9: for in-range `n` the handler's record has `n ≥ 1` and `result ≥ 1`,
so the zero-skipping serializer emits both fields and no `message`: the
success body is exactly `{n, result}`. -/
theorem C9_success_response_body (n : Int) (h1 : 1 ≤ n) (h2 : n ≤ 90) :
    fibonacci ⟨n⟩ = some ⟨n, fibRef n.toNat, ""⟩ ∧
    1 ≤ fibRef n.toNat ∧
    serializeFibonacciResult ⟨n, fibRef n.toNat, ""⟩ =
      [("n", JsonVal.num n), ("result", JsonVal.num (fibRef n.toNat))] := by
  have hr : (compute_fibonacci n).result = some (FibResult.ok (fibRef n.toNat)) :=
    result_ok_of_in_range n (by omega)
  have hpos : 1 ≤ fibRef n.toNat := fibRef_pos (by omega)
  refine ⟨by simp [fibonacci, hr], hpos, ?_⟩
  have hz1 : is_zero n = false := by
    simp only [is_zero, beq_eq_false_iff_ne, ne_eq]
    omega
  have hz2 : is_zero (fibRef n.toNat) = false := by
    simp only [is_zero, beq_eq_false_iff_ne, ne_eq]
    omega
  simp [serializeFibonacciResult, hz1, hz2, is_empty]
  rfl

/-- Witness for C9 at `n = 5`. -/
theorem C9_witness :
    fibonacci ⟨5⟩ = some ⟨5, fibRef (5:Int).toNat, ""⟩ ∧
    1 ≤ fibRef (5:Int).toNat ∧
    serializeFibonacciResult ⟨5, fibRef (5:Int).toNat, ""⟩ =
      [("n", JsonVal.num 5), ("result", JsonVal.num (fibRef (5:Int).toNat))] :=
  C9_success_response_body 5 (by norm_num) (by norm_num)

/-- C10: `compute_fibonacci` is total on the whole `i64` range: every input
between `i64::MIN` and `i64::MAX` yields a returned value (`Ok` or `Err`),
never the `none` that models a panic — out-of-range inputs are rejected by
the comparisons `n < 1 || n > 90` before any arithmetic runs. -/
theorem C10_total_on_i64 (n : Int) (hmin : i64Min ≤ n) (hmax : n ≤ i64Max) :
    ((compute_fibonacci n).result).isSome = true := by
  rw [compute_fibonacci_eq]
  by_cases h : n < 1 ∨ n > 90
  · rw [if_pos h]
    rfl
  · rw [if_neg h]
    rfl

/-- Witness for C10 at the extreme inputs `i64::MIN` and `i64::MAX`. -/
theorem C10_witness :
    ((compute_fibonacci i64Min).result).isSome = true ∧
    ((compute_fibonacci i64Max).result).isSome = true :=
  ⟨C10_total_on_i64 i64Min le_rfl (by norm_num [i64Min, i64Max]),
    C10_total_on_i64 i64Max (by norm_num [i64Min, i64Max]) le_rfl⟩
